import Mathlib

/-!
Verification of the gesture classification and interaction-mode engine of the
`ligong` repository (src/components/HandController.tsx, with the earlier
iteration in src/unnamed/part_004).

The controller logic is embedded shallowly: JavaScript numbers are modelled as
exact rationals (every constant appearing in the code — 0.9, 0.001, 12.0, 6.0,
0.35, 1.25, … — is exactly representable in ℚ), and the only non-rational
operation, the Euclidean distance `Math.hypot` used by the pose classifier, is
abstracted as an explicit function parameter `dist`; the claims that depend on
it need at most its nonnegativity, which is stated as a hypothesis where
required.  The mutable refs of the React component become fields of an explicit
state record threaded through a per-tick step function, and each callback
invocation (`onStateChange`, `onZoomChange`, `onRotateChange`,
`onPhotoFocusChange`) is recorded in a per-tick emission record.
-/

namespace Ligong

/-- `TreeState` from src/types.ts. -/
inductive TreeState where
  | CHAOS
  | FORMED
deriving DecidableEq

/-- `HandMode` from src/components/HandController.tsx line 23. -/
inductive HandMode where
  | IDLE
  | NAVIGATION
  | SELECTION
deriving DecidableEq

/-- `Pose` from src/components/HandController.tsx line 24. -/
inductive Pose where
  | OPEN
  | FIST
  | PINCH_3_OPEN
  | POINTING
  | UNKNOWN
deriving DecidableEq

/-- A normalized landmark: the `x`/`y` fields of a `NormalizedLandmark`. -/
structure Landmark where
  x : ℚ
  y : ℚ
deriving DecidableEq

/-- A hand is the indexed family of its 21 landmarks (array indexing of the
source becomes function application). -/
def Hand : Type := Nat → Landmark

/-- `ROTATION_SENSITIVITY` (HandController.tsx line 16). -/
def ROTATION_SENSITIVITY : ℚ := 12.0

/-- `INERTIA_DECAY` (HandController.tsx line 17). -/
def INERTIA_DECAY : ℚ := 0.90

/-- `ZOOM_SENSITIVITY` (HandController.tsx line 18). -/
def ZOOM_SENSITIVITY : ℚ := 6.0

/-- JavaScript `Math.abs`, as an exact (kernel-computable) rational
operation. -/
def rabs (q : ℚ) : ℚ := if q < 0 then -q else q

/-- JavaScript `Math.min`. -/
def rmin (a b : ℚ) : ℚ := if a ≤ b then a else b

/-- JavaScript `Math.max`. -/
def rmax (a b : ℚ) : ℚ := if a ≤ b then b else a

/-- The mutable refs of the controller component (HandController.tsx lines
40-49), plus `emittedFocus`, which models the photo-focus boolean last passed
to `onPhotoFocusChange` (the value held by the consuming application, initially
false). -/
structure CState where
  currentMode : HandMode
  previousPose : Pose
  lastHandCentroid : Option Landmark
  lastHandScale : Option ℚ
  currentRotationVel : ℚ
  currentZoomFactor : ℚ
  emittedFocus : Bool
deriving DecidableEq

/-- The initial ref values: mode IDLE, previous pose UNKNOWN, no stored
centroid or scale, zero velocity, zoom factor 0.5. -/
def initState : CState :=
  { currentMode := .IDLE
    previousPose := .UNKNOWN
    lastHandCentroid := none
    lastHandScale := none
    currentRotationVel := 0
    currentZoomFactor := 0.5
    emittedFocus := false }

/-- The callback invocations recorded during one tick, one list per callback,
in call order. -/
structure Emits where
  stateEmits : List TreeState
  zoomEmits : List ℚ
  rotateEmits : List ℚ
  focusEmits : List Bool
deriving DecidableEq

def Emits.nil : Emits := ⟨[], [], [], []⟩

def Emits.append (a b : Emits) : Emits :=
  ⟨a.stateEmits ++ b.stateEmits, a.zoomEmits ++ b.zoomEmits,
   a.rotateEmits ++ b.rotateEmits, a.focusEmits ++ b.focusEmits⟩

/-- `processState` (HandController.tsx lines 262-340): one detection tick's
mode arbitration and motion integration, given the classified pose, the
landmarks and the hand scale. -/
def processState (pose : Pose) (landmarks : Hand) (scale : ℚ) (s : CState) :
    CState × Emits :=
  match pose with
  | .PINCH_3_OPEN =>
      -- 1. NAVIGATION (Pinch)
      let pinchX := ((landmarks 4).x + (landmarks 8).x) / 2
      let pinchY := ((landmarks 4).y + (landmarks 8).y) / 2
      let rot :=
        match s.lastHandCentroid with
        | some c =>
            let dx := pinchX - c.x
            if rabs dx > 0.001 then
              (-dx * ROTATION_SENSITIVITY, [-dx * ROTATION_SENSITIVITY])
            else (s.currentRotationVel, [])
        | none => (s.currentRotationVel, [])
      let zm :=
        match s.lastHandScale with
        | some prev =>
            let dScale := scale - prev
            let newZoom :=
              rmax 0 (rmin 1 (s.currentZoomFactor + dScale * ZOOM_SENSITIVITY))
            (newZoom, [newZoom])
        | none => (s.currentZoomFactor, [])
      ({ currentMode := .NAVIGATION
         previousPose := pose
         lastHandCentroid := some ⟨pinchX, pinchY⟩
         lastHandScale := some scale
         currentRotationVel := rot.1
         currentZoomFactor := zm.1
         emittedFocus := false },
       ⟨[], zm.2, rot.2, [false]⟩)
  | .POINTING =>
      -- 2. SELECTION (Pointing): enable photo focus directly
      ({ s with
         currentMode := .SELECTION
         previousPose := pose
         lastHandCentroid := none
         lastHandScale := none
         emittedFocus := true },
       ⟨[], [], [], [true]⟩)
  | .FIST =>
      -- 3. FIST = AGGREGATE (FORM TREE)
      ({ s with
         currentMode := .IDLE
         previousPose := pose
         lastHandCentroid := none
         lastHandScale := none
         emittedFocus := false },
       ⟨[.FORMED], [], [], [false]⟩)
  | .OPEN =>
      -- 4. OPEN = DISPERSE (CHAOS)
      ({ s with
         currentMode := .IDLE
         previousPose := pose
         lastHandCentroid := none
         lastHandScale := none
         emittedFocus := false },
       ⟨[.CHAOS], [], [], [false]⟩)
  | .UNKNOWN =>
      -- 5. IDLE/UNKNOWN: if we were selecting but lost the pose, stop selecting
      let sel := s.currentMode = .SELECTION
      ({ s with
         currentMode := .IDLE
         previousPose := pose
         lastHandCentroid := none
         lastHandScale := none
         emittedFocus := if sel then false else s.emittedFocus },
       ⟨[], [], [], if sel then [false] else []⟩)

/-- `handleHandLost` (HandController.tsx lines 342-348). -/
def handleHandLost (s : CState) : CState × Emits :=
  ({ s with
     currentMode := .IDLE
     lastHandCentroid := none
     lastHandScale := none
     emittedFocus := false },
   ⟨[], [], [], [false]⟩)

/-- One inertia-decay update of the rotation velocity (HandController.tsx lines
131-132): multiply by `INERTIA_DECAY`, snap to 0 once the magnitude falls below
0.001. -/
def decayStep (v : ℚ) : ℚ :=
  let w := v * INERTIA_DECAY
  if rabs w < 0.001 then 0 else w

/-- The physics part of the scheduling loop (HandController.tsx lines 129-134):
when the mode is not NAVIGATION, decay the rotation velocity and emit it. -/
def physicsStep (s : CState) : CState × Emits :=
  if s.currentMode ≠ HandMode.NAVIGATION then
    let v := decayStep s.currentRotationVel
    ({ s with currentRotationVel := v }, ⟨[], [], [v], []⟩)
  else (s, Emits.nil)

/-- The per-detection-tick input: either the hand was lost, or one main hand
was seen with its classified pose, landmarks and scale. -/
inductive DetIn where
  | lost
  | seen (pose : Pose) (landmarks : Hand) (scale : ℚ)

/-- The detection part of a tick (`detect`, HandController.tsx lines 244-257):
hand lost ⇒ `handleHandLost`; hand seen ⇒ `processState`. -/
def detectStep (s : CState) : DetIn → CState × Emits
  | .lost => handleHandLost s
  | .seen p lms scale => processState p lms scale s

/-- One full scheduling tick (`loop`, HandController.tsx lines 126-144): the
physics step always runs; the detection step runs when the throttle admitted a
detection this frame (`some d`), and is skipped otherwise (`none`). -/
def tickE (s : CState) (i : Option DetIn) : CState × Emits :=
  let p := physicsStep s
  match i with
  | none => p
  | some d =>
      let q := detectStep p.1 d
      (q.1, p.2.append q.2)

def tick (s : CState) (i : Option DetIn) : CState := (tickE s i).1

/-- Run the controller from the initial state over a list of scheduling
ticks. -/
def run (l : List (Option DetIn)) : CState := l.foldl tick initState

/-- A full scheduling tick that includes a detection. -/
def dtickE (s : CState) (d : DetIn) : CState × Emits := tickE s (some d)

def dtick (s : CState) (d : DetIn) : CState := tick s (some d)

/-- Run the controller from the initial state over a list of detection
ticks. -/
def drun (l : List DetIn) : CState := l.foldl dtick initState

/-! ### Pose classifier

`determinePose` (HandController.tsx lines 170-209) and the earlier iteration
`determinePose004` (src/unnamed/part_004 lines 164-202).  The Euclidean
distance `Math.hypot` is abstracted as the parameter `dist`; each classifier is
factored through a core over the finger booleans, mirroring the if-chain of its
source. -/

/-- `isFingerExtended` (HandController.tsx lines 157-161): tip farther from the
wrist than the PIP joint times 1.0. -/
def isFingerExtended (dist : Landmark → Landmark → ℚ) (landmarks : Hand)
    (tipIdx pipIdx wristIdx : Nat) : Bool :=
  let dTip := dist (landmarks tipIdx) (landmarks wristIdx)
  let dPip := dist (landmarks pipIdx) (landmarks wristIdx)
  decide (dTip > dPip * 1.0)

/-- `isFingerCurled` (HandController.tsx lines 164-168): tip closer to the
wrist than the PIP joint times 1.25. -/
def isFingerCurled (dist : Landmark → Landmark → ℚ) (landmarks : Hand)
    (tipIdx pipIdx wristIdx : Nat) : Bool :=
  let dTip := dist (landmarks tipIdx) (landmarks wristIdx)
  let dPip := dist (landmarks pipIdx) (landmarks wristIdx)
  decide (dTip < dPip * 1.25)

/-- The if-chain of `determinePose` (HandController.tsx lines 185-208) over the
pinch/extended/curled booleans: PINCH_3_OPEN, then POINTING, then FIST, then
OPEN, else UNKNOWN. -/
def classifyCore (isPinch io mo ro po ic mc rc pc : Bool) : Pose :=
  if isPinch && mo && ro && po then .PINCH_3_OPEN
  else if io && mc && rc && pc then .POINTING
  else if ic && mc && rc && pc then .FIST
  else if io && mo && ro && po then .OPEN
  else .UNKNOWN

/-- `determinePose` (HandController.tsx lines 170-209); landmark indices: wrist
0, thumb tip 4, index tip 8, middle tip 12, ring tip 16, pinky tip 20, PIPs 6,
10, 14, 18. -/
def determinePose (dist : Landmark → Landmark → ℚ) (landmarks : Hand)
    (scale : ℚ) : Pose :=
  let pinchDist := dist (landmarks 4) (landmarks 8)
  classifyCore (decide (pinchDist / scale < 0.35))
    (isFingerExtended dist landmarks 8 6 0)
    (isFingerExtended dist landmarks 12 10 0)
    (isFingerExtended dist landmarks 16 14 0)
    (isFingerExtended dist landmarks 20 18 0)
    (isFingerCurled dist landmarks 8 6 0)
    (isFingerCurled dist landmarks 12 10 0)
    (isFingerCurled dist landmarks 16 14 0)
    (isFingerCurled dist landmarks 20 18 0)

/-- `isFingerExtended` of the earlier iteration (part_004 lines 152-156,
threshold 1.15). -/
def isFingerExtended004 (dist : Landmark → Landmark → ℚ) (landmarks : Hand)
    (tipIdx pipIdx wristIdx : Nat) : Bool :=
  let dTip := dist (landmarks tipIdx) (landmarks wristIdx)
  let dPip := dist (landmarks pipIdx) (landmarks wristIdx)
  decide (dTip > dPip * 1.15)

/-- `isFingerCurled` of the earlier iteration (part_004 lines 158-162,
threshold 1.05). -/
def isFingerCurled004 (dist : Landmark → Landmark → ℚ) (landmarks : Hand)
    (tipIdx pipIdx wristIdx : Nat) : Bool :=
  let dTip := dist (landmarks tipIdx) (landmarks wristIdx)
  let dPip := dist (landmarks pipIdx) (landmarks wristIdx)
  decide (dTip < dPip * 1.05)

/-- The if-chain of the earlier iteration's `determinePose` (part_004 lines
179-201): PINCH_3_OPEN, then FIST, then OPEN, then POINTING, else UNKNOWN. -/
def classify004Core (isPinch io mo ro po ic mc rc pc : Bool) : Pose :=
  if isPinch && mo && ro && po then .PINCH_3_OPEN
  else if ic && mc && rc && pc then .FIST
  else if io && mo && ro && po then .OPEN
  else if io && mc && rc && pc then .POINTING
  else .UNKNOWN

/-- `determinePose` of the earlier iteration (part_004 lines 164-202). -/
def determinePose004 (dist : Landmark → Landmark → ℚ) (landmarks : Hand)
    (scale : ℚ) : Pose :=
  let pinchDist := dist (landmarks 4) (landmarks 8)
  classify004Core (decide (pinchDist / scale < 0.35))
    (isFingerExtended004 dist landmarks 8 6 0)
    (isFingerExtended004 dist landmarks 12 10 0)
    (isFingerExtended004 dist landmarks 16 14 0)
    (isFingerExtended004 dist landmarks 20 18 0)
    (isFingerCurled004 dist landmarks 8 6 0)
    (isFingerCurled004 dist landmarks 12 10 0)
    (isFingerCurled004 dist landmarks 16 14 0)
    (isFingerCurled004 dist landmarks 20 18 0)

/-- First rule whose condition holds wins; UNKNOWN when none matches. -/
def firstMatch : List (Bool × Pose) → Pose
  | [] => .UNKNOWN
  | (c, p) :: rest => if c then p else firstMatch rest

/-- Modelled from the spec's words (classification priority, first match wins):
the rules checked in the fixed order PINCH, POINTING, FIST, OPEN, with UNKNOWN
as the fallback, over given finger booleans. -/
def classifyByPriority (isPinch io mo ro po ic mc rc pc : Bool) : Pose :=
  firstMatch
    [(isPinch && mo && ro && po, .PINCH_3_OPEN),
     (io && mc && rc && pc, .POINTING),
     (ic && mc && rc && pc, .FIST),
     (io && mo && ro && po, .OPEN)]

/-- The spec-order classifier instantiated with the current iteration's
predicates. -/
def determinePoseSpec (dist : Landmark → Landmark → ℚ) (landmarks : Hand)
    (scale : ℚ) : Pose :=
  let pinchDist := dist (landmarks 4) (landmarks 8)
  classifyByPriority (decide (pinchDist / scale < 0.35))
    (isFingerExtended dist landmarks 8 6 0)
    (isFingerExtended dist landmarks 12 10 0)
    (isFingerExtended dist landmarks 16 14 0)
    (isFingerExtended dist landmarks 20 18 0)
    (isFingerCurled dist landmarks 8 6 0)
    (isFingerCurled dist landmarks 12 10 0)
    (isFingerCurled dist landmarks 16 14 0)
    (isFingerCurled dist landmarks 20 18 0)

/-- The spec-order classifier instantiated with the earlier iteration's
predicates. -/
def determinePose004Spec (dist : Landmark → Landmark → ℚ) (landmarks : Hand)
    (scale : ℚ) : Pose :=
  let pinchDist := dist (landmarks 4) (landmarks 8)
  classifyByPriority (decide (pinchDist / scale < 0.35))
    (isFingerExtended004 dist landmarks 8 6 0)
    (isFingerExtended004 dist landmarks 12 10 0)
    (isFingerExtended004 dist landmarks 16 14 0)
    (isFingerExtended004 dist landmarks 20 18 0)
    (isFingerCurled004 dist landmarks 8 6 0)
    (isFingerCurled004 dist landmarks 12 10 0)
    (isFingerCurled004 dist landmarks 16 14 0)
    (isFingerCurled004 dist landmarks 20 18 0)

/-- One iteration of the main-hand loop of `detect` (HandController.tsx lines
235-241): the candidate hand replaces the accumulator exactly when its
wrist-to-middle-finger-base distance strictly exceeds the running maximum. -/
def mainHandStep (dist : Landmark → Landmark → ℚ) (acc : Option Hand × ℚ)
    (hand : Hand) : Option Hand × ℚ :=
  let s := dist (hand 0) (hand 9)
  if s > acc.2 then (some hand, s) else acc

/-- The main-hand selection of `detect` (HandController.tsx lines 231-242):
fold `mainHandStep` over the detected hands starting from no main hand and a
running maximum of 0; returns the main hand (if any) and its scale. -/
def selectMainHand (dist : Landmark → Landmark → ℚ) (hands : List Hand) :
    Option Hand × ℚ :=
  hands.foldl (mainHandStep dist) (none, 0)

/-- The state invariant backing the click analysis: the photo-focus boolean
held by the consumer is true only while the controller is in SELECTION mode
(i.e. only immediately after a POINTING tick). -/
def InvSel (s : CState) : Prop :=
  s.emittedFocus = true → s.currentMode = HandMode.SELECTION

/-- The state invariant backing the emission-count analysis: a stored pinch
centroid implies NAVIGATION mode. -/
def InvNav (s : CState) : Prop :=
  s.lastHandCentroid.isSome = true → s.currentMode = HandMode.NAVIGATION

-- sanity checks (detection-tick behaviour on concrete inputs)
example :
    (dtick initState (.seen .FIST (fun _ => ⟨0, 0⟩) 1)).previousPose
      = Pose.FIST := by decide
example :
    (dtick initState (.seen .POINTING (fun _ => ⟨0, 0⟩) 1)).emittedFocus
      = true := by decide
example :
    (dtick (dtick initState (.seen .POINTING (fun _ => ⟨0, 0⟩) 1))
        (.seen .FIST (fun _ => ⟨0, 0⟩) 1)).emittedFocus = false := by decide

/-! ### Helper lemmas -/

theorem rabs_eq_abs (q : ℚ) : rabs q = |q| := by
  rw [rabs]
  split
  · next h => exact (abs_of_neg h).symm
  · next h => exact (abs_of_nonneg (not_lt.1 h)).symm

theorem rmin_eq_min (a b : ℚ) : rmin a b = min a b := by
  rw [rmin]
  split
  · next h => exact (min_eq_left h).symm
  · next h => exact (min_eq_right (le_of_not_le h)).symm

theorem rmax_eq_max (a b : ℚ) : rmax a b = max a b := by
  rw [rmax]
  split
  · next h => exact (max_eq_right h).symm
  · next h => exact (max_eq_left (le_of_not_le h)).symm

theorem physicsStep_fst (s : CState) :
    (physicsStep s).1 = { s with currentRotationVel := (physicsStep s).1.currentRotationVel } := by
  unfold physicsStep
  split <;> rfl

theorem physicsStep_currentMode (s : CState) :
    (physicsStep s).1.currentMode = s.currentMode := by
  unfold physicsStep; split <;> rfl

theorem physicsStep_emittedFocus (s : CState) :
    (physicsStep s).1.emittedFocus = s.emittedFocus := by
  unfold physicsStep; split <;> rfl

theorem physicsStep_previousPose (s : CState) :
    (physicsStep s).1.previousPose = s.previousPose := by
  unfold physicsStep; split <;> rfl

theorem physicsStep_currentZoomFactor (s : CState) :
    (physicsStep s).1.currentZoomFactor = s.currentZoomFactor := by
  unfold physicsStep; split <;> rfl

theorem physicsStep_lastHandCentroid (s : CState) :
    (physicsStep s).1.lastHandCentroid = s.lastHandCentroid := by
  unfold physicsStep; split <;> rfl

theorem physicsStep_lastHandScale (s : CState) :
    (physicsStep s).1.lastHandScale = s.lastHandScale := by
  unfold physicsStep; split <;> rfl

theorem physicsStep_zoomEmits (s : CState) :
    (physicsStep s).2.zoomEmits = [] := by
  unfold physicsStep; split <;> rfl

theorem dtick_eq (s : CState) (d : DetIn) :
    dtick s d = (detectStep (physicsStep s).1 d).1 := rfl

theorem tick_none (s : CState) : tick s none = (physicsStep s).1 := rfl

theorem detectStep_focus_false (s : CState) (d : DetIn) (hInv : InvSel s)
    (hnp : ∀ lms sc, d ≠ DetIn.seen Pose.POINTING lms sc) :
    (detectStep s d).1.emittedFocus = false := by
  cases d with
  | lost => rfl
  | seen p lms sc =>
    cases p with
    | POINTING => exact absurd rfl (hnp lms sc)
    | PINCH_3_OPEN => rfl
    | FIST => rfl
    | OPEN => rfl
    | UNKNOWN =>
      simp only [detectStep, processState]
      by_cases h : s.currentMode = HandMode.SELECTION
      · simp [h]
      · simp only [h, if_false]
        cases hf : s.emittedFocus with
        | false => rfl
        | true => exact absurd (hInv hf) h

theorem InvSel_physicsStep (s : CState) (h : InvSel s) :
    InvSel (physicsStep s).1 := by
  intro hf
  rw [physicsStep_emittedFocus] at hf
  rw [physicsStep_currentMode]
  exact h hf

theorem InvSel_detectStep (s : CState) (d : DetIn) (h : InvSel s) :
    InvSel (detectStep s d).1 := by
  cases d with
  | lost => intro hf; cases hf
  | seen p lms sc =>
    cases p with
    | POINTING => intro _; rfl
    | PINCH_3_OPEN => intro hf; cases hf
    | FIST => intro hf; cases hf
    | OPEN => intro hf; cases hf
    | UNKNOWN =>
      intro hf
      exfalso
      revert hf
      simp only [detectStep, processState]
      by_cases hm : s.currentMode = HandMode.SELECTION
      · simp [hm]
      · simp only [hm, if_false]
        intro hf
        exact hm (h hf)

theorem InvSel_tick (s : CState) (i : Option DetIn) (h : InvSel s) :
    InvSel (tick s i) := by
  cases i with
  | none => exact InvSel_physicsStep s h
  | some d => exact InvSel_detectStep _ d (InvSel_physicsStep s h)

theorem InvSel_initState : InvSel initState := by
  intro hf; cases hf

theorem InvSel_foldl_dtick :
    ∀ (l : List DetIn) (s : CState), InvSel s → InvSel (l.foldl dtick s)
  | [], _, h => h
  | d :: rest, s, h =>
      InvSel_foldl_dtick rest (dtick s d) (InvSel_tick s (some d) h)

theorem InvSel_drun (l : List DetIn) : InvSel (drun l) :=
  InvSel_foldl_dtick l initState InvSel_initState

theorem dtick_focus_false (s : CState) (d : DetIn) (hInv : InvSel s)
    (hnp : ∀ lms sc, d ≠ DetIn.seen Pose.POINTING lms sc) :
    (dtick s d).emittedFocus = false := by
  rw [dtick_eq]
  exact detectStep_focus_false _ d (InvSel_physicsStep s hInv) hnp

theorem drun_append_single (l : List DetIn) (d : DetIn) :
    drun (l ++ [d]) = dtick (drun l) d := by
  unfold drun
  rw [List.foldl_append]
  rfl

theorem dtick_fist_focus (s : CState) (lms : Hand) (sc : ℚ) :
    (dtick s (.seen .FIST lms sc)).emittedFocus = false := rfl

theorem dtick_pointing_focus (s : CState) (lms : Hand) (sc : ℚ) :
    (dtick s (.seen .POINTING lms sc)).emittedFocus = true := rfl

theorem physicsStep_focusEmits (s : CState) :
    (physicsStep s).2.focusEmits = [] := by
  unfold physicsStep; split <;> rfl

theorem physicsStep_stateEmits (s : CState) :
    (physicsStep s).2.stateEmits = [] := by
  unfold physicsStep; split <;> rfl

theorem dtickE_fist_focusEmits (s : CState) (lms : Hand) (sc : ℚ) :
    (dtickE s (.seen .FIST lms sc)).2.focusEmits = [false] := by
  show ((physicsStep s).2.append ⟨[.FORMED], [], [], [false]⟩).focusEmits = [false]
  show (physicsStep s).2.focusEmits ++ [false] = [false]
  rw [physicsStep_focusEmits]
  rfl

theorem processState_previousPose (p : Pose) (lms : Hand) (sc : ℚ) (s : CState) :
    (processState p lms sc s).1.previousPose = p := by
  cases p <;> rfl

theorem processState_zoom_not_pinch (p : Pose) (lms : Hand) (sc : ℚ)
    (s : CState) (hp : p ≠ Pose.PINCH_3_OPEN) :
    (processState p lms sc s).1.currentZoomFactor = s.currentZoomFactor := by
  cases p with
  | PINCH_3_OPEN => exact absurd rfl hp
  | OPEN => rfl
  | FIST => rfl
  | POINTING => rfl
  | UNKNOWN => rfl

theorem processState_zoomEmits_not_pinch (p : Pose) (lms : Hand) (sc : ℚ)
    (s : CState) (hp : p ≠ Pose.PINCH_3_OPEN) :
    (processState p lms sc s).2.zoomEmits = [] := by
  cases p with
  | PINCH_3_OPEN => exact absurd rfl hp
  | OPEN => rfl
  | FIST => rfl
  | POINTING => rfl
  | UNKNOWN => rfl

theorem processState_pinch_zoom_some (lms : Hand) (sc : ℚ) (s : CState)
    (prev : ℚ) (hs : s.lastHandScale = some prev) :
    (processState .PINCH_3_OPEN lms sc s).1.currentZoomFactor
        = rmax 0 (rmin 1 (s.currentZoomFactor + (sc - prev) * ZOOM_SENSITIVITY)) ∧
      (processState .PINCH_3_OPEN lms sc s).2.zoomEmits
        = [rmax 0 (rmin 1 (s.currentZoomFactor + (sc - prev) * ZOOM_SENSITIVITY))] := by
  simp only [processState, hs]
  constructor <;> trivial

theorem processState_pinch_zoom_bounds (lms : Hand) (sc : ℚ) (s : CState)
    (h0 : 0 ≤ s.currentZoomFactor) (h1 : s.currentZoomFactor ≤ 1) :
    0 ≤ (processState .PINCH_3_OPEN lms sc s).1.currentZoomFactor ∧
      (processState .PINCH_3_OPEN lms sc s).1.currentZoomFactor ≤ 1 := by
  cases hs : s.lastHandScale with
  | none =>
      simp only [processState, hs]
      exact ⟨h0, h1⟩
  | some prev =>
      simp only [processState, hs, rmax_eq_max, rmin_eq_min]
      refine ⟨le_max_left 0 _, max_le (by norm_num) ?_⟩
      exact min_le_left 1 _

theorem processState_pinch_rot_some (lms : Hand) (sc : ℚ) (s : CState)
    (c : Landmark) (hc : s.lastHandCentroid = some c) :
    ((rabs (((lms 4).x + (lms 8).x) / 2 - c.x) > 0.001 →
        (processState .PINCH_3_OPEN lms sc s).1.currentRotationVel
          = -(((lms 4).x + (lms 8).x) / 2 - c.x) * ROTATION_SENSITIVITY ∧
        (processState .PINCH_3_OPEN lms sc s).2.rotateEmits
          = [-(((lms 4).x + (lms 8).x) / 2 - c.x) * ROTATION_SENSITIVITY]) ∧
     (¬ rabs (((lms 4).x + (lms 8).x) / 2 - c.x) > 0.001 →
        (processState .PINCH_3_OPEN lms sc s).1.currentRotationVel
          = s.currentRotationVel ∧
        (processState .PINCH_3_OPEN lms sc s).2.rotateEmits = [])) := by
  constructor
  · intro hdx
    simp only [processState, hc, if_pos hdx]
    constructor <;> trivial
  · intro hdx
    simp only [processState, hc, if_neg hdx]
    constructor <;> trivial

theorem zoom_bounds_tick (s : CState) (i : Option DetIn)
    (h0 : 0 ≤ s.currentZoomFactor) (h1 : s.currentZoomFactor ≤ 1) :
    0 ≤ (tick s i).currentZoomFactor ∧ (tick s i).currentZoomFactor ≤ 1 := by
  cases i with
  | none =>
      rw [tick_none, physicsStep_currentZoomFactor]
      exact ⟨h0, h1⟩
  | some d =>
      cases d with
      | lost =>
          show 0 ≤ (physicsStep s).1.currentZoomFactor ∧
            (physicsStep s).1.currentZoomFactor ≤ 1
          rw [physicsStep_currentZoomFactor]
          exact ⟨h0, h1⟩
      | seen p lms sc =>
          show 0 ≤ (processState p lms sc (physicsStep s).1).1.currentZoomFactor ∧
            (processState p lms sc (physicsStep s).1).1.currentZoomFactor ≤ 1
          cases p with
          | PINCH_3_OPEN =>
              exact processState_pinch_zoom_bounds lms sc (physicsStep s).1
                (by rw [physicsStep_currentZoomFactor]; exact h0)
                (by rw [physicsStep_currentZoomFactor]; exact h1)
          | OPEN =>
              rw [processState_zoom_not_pinch _ _ _ _ (by decide),
                physicsStep_currentZoomFactor]
              exact ⟨h0, h1⟩
          | FIST =>
              rw [processState_zoom_not_pinch _ _ _ _ (by decide),
                physicsStep_currentZoomFactor]
              exact ⟨h0, h1⟩
          | POINTING =>
              rw [processState_zoom_not_pinch _ _ _ _ (by decide),
                physicsStep_currentZoomFactor]
              exact ⟨h0, h1⟩
          | UNKNOWN =>
              rw [processState_zoom_not_pinch _ _ _ _ (by decide),
                physicsStep_currentZoomFactor]
              exact ⟨h0, h1⟩

theorem zoom_bounds_foldl :
    ∀ (l : List (Option DetIn)) (s : CState),
      0 ≤ s.currentZoomFactor → s.currentZoomFactor ≤ 1 →
      0 ≤ (l.foldl tick s).currentZoomFactor ∧
        (l.foldl tick s).currentZoomFactor ≤ 1
  | [], _, h0, h1 => ⟨h0, h1⟩
  | i :: rest, s, h0, h1 => by
      rw [List.foldl_cons]
      have h := zoom_bounds_tick s i h0 h1
      exact zoom_bounds_foldl rest (tick s i) h.1 h.2

theorem InvNav_detectStep (s : CState) (d : DetIn) :
    InvNav (detectStep s d).1 := by
  cases d with
  | lost => intro h; simp [handleHandLost, detectStep] at h
  | seen p lms sc =>
    cases p with
    | PINCH_3_OPEN => intro _; rfl
    | OPEN => intro h; simp [processState, detectStep] at h
    | FIST => intro h; simp [processState, detectStep] at h
    | POINTING => intro h; simp [processState, detectStep] at h
    | UNKNOWN => intro h; simp [processState, detectStep] at h

theorem InvNav_physicsStep (s : CState) (h : InvNav s) :
    InvNav (physicsStep s).1 := by
  intro hc
  rw [physicsStep_lastHandCentroid] at hc
  rw [physicsStep_currentMode]
  exact h hc

theorem InvNav_tick (s : CState) (i : Option DetIn) (h : InvNav s) :
    InvNav (tick s i) := by
  cases i with
  | none => exact InvNav_physicsStep s h
  | some d => exact InvNav_detectStep (physicsStep s).1 d

theorem InvNav_initState : InvNav initState := by
  intro h; simp [initState] at h

theorem InvNav_foldl_tick :
    ∀ (l : List (Option DetIn)) (s : CState), InvNav s →
      InvNav (l.foldl tick s)
  | [], _, h => h
  | i :: rest, s, h =>
      InvNav_foldl_tick rest (tick s i) (InvNav_tick s i h)

theorem InvNav_run (l : List (Option DetIn)) : InvNav (run l) :=
  InvNav_foldl_tick l initState InvNav_initState

theorem physicsStep_rotateEmits_len (s : CState) :
    (physicsStep s).2.rotateEmits.length ≤ 1 := by
  unfold physicsStep; split <;> simp [Emits.nil]

theorem physicsStep_rotateEmits_nav (s : CState)
    (h : s.currentMode = HandMode.NAVIGATION) :
    (physicsStep s).2.rotateEmits = [] := by
  unfold physicsStep
  rw [if_neg]
  · rfl
  · simp [h]

theorem processState_stateEmits_len (p : Pose) (lms : Hand) (sc : ℚ)
    (s : CState) : (processState p lms sc s).2.stateEmits.length ≤ 1 := by
  cases p <;> simp [processState]

theorem processState_zoomEmits_len (p : Pose) (lms : Hand) (sc : ℚ)
    (s : CState) : (processState p lms sc s).2.zoomEmits.length ≤ 1 := by
  cases p with
  | PINCH_3_OPEN =>
      cases hs : s.lastHandScale with
      | none => simp [processState, hs]
      | some prev => simp [processState, hs]
  | OPEN => simp [processState]
  | FIST => simp [processState]
  | POINTING => simp [processState]
  | UNKNOWN => simp [processState]

theorem processState_focusEmits_len (p : Pose) (lms : Hand) (sc : ℚ)
    (s : CState) : (processState p lms sc s).2.focusEmits.length ≤ 1 := by
  cases p with
  | PINCH_3_OPEN => simp [processState]
  | OPEN => simp [processState]
  | FIST => simp [processState]
  | POINTING => simp [processState]
  | UNKNOWN => simp only [processState]; split <;> simp

theorem processState_rotateEmits_len (p : Pose) (lms : Hand) (sc : ℚ)
    (s : CState) : (processState p lms sc s).2.rotateEmits.length ≤ 1 := by
  cases p with
  | PINCH_3_OPEN =>
      cases hc : s.lastHandCentroid with
      | none => simp [processState, hc]
      | some c =>
          simp only [processState, hc]
          split <;> simp
  | OPEN => simp [processState]
  | FIST => simp [processState]
  | POINTING => simp [processState]
  | UNKNOWN => simp [processState]

theorem processState_rotateEmits_of_none (p : Pose) (lms : Hand) (sc : ℚ)
    (s : CState) (hc : s.lastHandCentroid = none) :
    (processState p lms sc s).2.rotateEmits = [] := by
  cases p <;> simp [processState, hc]

theorem tickE_emits_len (s : CState) (i : Option DetIn) (h : InvNav s) :
    (tickE s i).2.stateEmits.length ≤ 1 ∧
      (tickE s i).2.zoomEmits.length ≤ 1 ∧
      (tickE s i).2.rotateEmits.length ≤ 1 ∧
      (tickE s i).2.focusEmits.length ≤ 1 := by
  cases i with
  | none =>
      have ht : tickE s none = physicsStep s := rfl
      rw [ht, physicsStep_stateEmits, physicsStep_zoomEmits,
        physicsStep_focusEmits]
      exact ⟨by simp, by simp, physicsStep_rotateEmits_len s, by simp⟩
  | some d =>
      have ht : tickE s (some d)
          = ((detectStep (physicsStep s).1 d).1,
             (physicsStep s).2.append (detectStep (physicsStep s).1 d).2) := rfl
      rw [ht]
      have hst : ∀ a b : Emits,
          (a.append b).stateEmits = a.stateEmits ++ b.stateEmits := fun _ _ => rfl
      have hzm : ∀ a b : Emits,
          (a.append b).zoomEmits = a.zoomEmits ++ b.zoomEmits := fun _ _ => rfl
      have hrt : ∀ a b : Emits,
          (a.append b).rotateEmits = a.rotateEmits ++ b.rotateEmits := fun _ _ => rfl
      have hfc : ∀ a b : Emits,
          (a.append b).focusEmits = a.focusEmits ++ b.focusEmits := fun _ _ => rfl
      rw [hst, hzm, hrt, hfc, physicsStep_stateEmits, physicsStep_zoomEmits,
        physicsStep_focusEmits]
      cases d with
      | lost =>
          refine ⟨by simp [detectStep, handleHandLost], by simp [detectStep, handleHandLost], ?_, by simp [detectStep, handleHandLost]⟩
          have : (detectStep (physicsStep s).1 DetIn.lost).2.rotateEmits = [] := rfl
          rw [this]
          simpa using physicsStep_rotateEmits_len s
      | seen p lms sc =>
          refine ⟨by simpa using processState_stateEmits_len p lms sc _,
            by simpa using processState_zoomEmits_len p lms sc _,
            ?_,
            by simpa using processState_focusEmits_len p lms sc _⟩
          by_cases hm : s.currentMode = HandMode.NAVIGATION
          · rw [physicsStep_rotateEmits_nav s hm]
            simpa using processState_rotateEmits_len p lms sc _
          · have hc : s.lastHandCentroid = none := by
              cases hcc : s.lastHandCentroid with
              | none => rfl
              | some c => exact absurd (h (by simp [hcc])) hm
            have hc2 : (physicsStep s).1.lastHandCentroid = none := by
              rw [physicsStep_lastHandCentroid]; exact hc
            have hdd : (detectStep (physicsStep s).1 (DetIn.seen p lms sc)).2.rotateEmits
                = (processState p lms sc (physicsStep s).1).2.rotateEmits := rfl
            rw [hdd, processState_rotateEmits_of_none p lms sc _ hc2]
            simpa using physicsStep_rotateEmits_len s

theorem decayStep_abs_le (v : ℚ) : |decayStep v| ≤ |v| * INERTIA_DECAY := by
  show |if rabs (v * INERTIA_DECAY) < 0.001 then (0 : ℚ) else v * INERTIA_DECAY| ≤ _
  split
  · rw [abs_zero]
    exact mul_nonneg (abs_nonneg v) (by norm_num [INERTIA_DECAY])
  · rw [abs_mul]
    apply le_of_eq
    norm_num [INERTIA_DECAY]

theorem decayStep_iterate_abs_le (v : ℚ) :
    ∀ n : ℕ, |decayStep^[n] v| ≤ |v| * INERTIA_DECAY ^ n := by
  intro n
  induction n with
  | zero => simp
  | succ n ih =>
      rw [Function.iterate_succ_apply']
      calc |decayStep (decayStep^[n] v)|
          ≤ |decayStep^[n] v| * INERTIA_DECAY := decayStep_abs_le _
        _ ≤ |v| * INERTIA_DECAY ^ n * INERTIA_DECAY :=
            mul_le_mul_of_nonneg_right ih (by norm_num [INERTIA_DECAY])
        _ = |v| * INERTIA_DECAY ^ (n + 1) := by ring

theorem decayStep_strict (v : ℚ) (hv : v ≠ 0) : |decayStep v| < |v| := by
  show |if rabs (v * INERTIA_DECAY) < 0.001 then (0 : ℚ) else v * INERTIA_DECAY| < _
  split
  · rw [abs_zero]
    exact abs_pos.2 hv
  · rw [abs_mul]
    have h9 : |INERTIA_DECAY| = INERTIA_DECAY := by norm_num [INERTIA_DECAY]
    rw [h9]
    calc |v| * INERTIA_DECAY < |v| * 1 :=
          mul_lt_mul_of_pos_left (by norm_num [INERTIA_DECAY]) (abs_pos.2 hv)
      _ = |v| := mul_one _

theorem decayStep_snap (v : ℚ) (h : rabs (v * INERTIA_DECAY) < 0.001) :
    decayStep v = 0 := by
  show (if rabs (v * INERTIA_DECAY) < 0.001 then (0 : ℚ) else v * INERTIA_DECAY) = 0
  exact if_pos h

theorem decayStep_terminates (v : ℚ) : ∃ n : ℕ, decayStep^[n] v = 0 := by
  rcases eq_or_ne v 0 with rfl | hv
  · refine ⟨1, ?_⟩
    rw [Function.iterate_one]
    apply decayStep_snap
    norm_num [rabs, INERTIA_DECAY]
  · have hpos : (0 : ℚ) < |v| * INERTIA_DECAY :=
      mul_pos (abs_pos.2 hv) (by norm_num [INERTIA_DECAY])
    have hlt : (INERTIA_DECAY : ℚ) < 1 := by norm_num [INERTIA_DECAY]
    obtain ⟨n, hn⟩ := exists_pow_lt_of_lt_one
      (div_pos (by norm_num : (0 : ℚ) < 0.001) hpos) hlt
    refine ⟨n + 1, ?_⟩
    rw [Function.iterate_succ_apply']
    apply decayStep_snap
    rw [rabs_eq_abs, abs_mul]
    have h9 : |INERTIA_DECAY| = INERTIA_DECAY := by norm_num [INERTIA_DECAY]
    rw [h9]
    calc |decayStep^[n] v| * INERTIA_DECAY
        ≤ |v| * INERTIA_DECAY ^ n * INERTIA_DECAY :=
          mul_le_mul_of_nonneg_right (decayStep_iterate_abs_le v n)
            (by norm_num [INERTIA_DECAY])
      _ = |v| * INERTIA_DECAY * INERTIA_DECAY ^ n := by ring
      _ < |v| * INERTIA_DECAY * (0.001 / (|v| * INERTIA_DECAY)) :=
          mul_lt_mul_of_pos_left hn hpos
      _ = 0.001 := by field_simp

theorem classify004_order :
    ∀ isPinch io mo ro po ic mc rc pc : Bool,
      (io = true → ic = false) → (mo = true → mc = false) →
      (ro = true → rc = false) → (po = true → pc = false) →
      classify004Core isPinch io mo ro po ic mc rc pc
        = classifyByPriority isPinch io mo ro po ic mc rc pc := by
  decide

theorem excl004 (dist : Landmark → Landmark → ℚ)
    (hd : ∀ a b, 0 ≤ dist a b) (lms : Hand) (t p : Nat) :
    isFingerExtended004 dist lms t p 0 = true →
      isFingerCurled004 dist lms t p 0 = false := by
  intro h
  rw [isFingerExtended004, decide_eq_true_eq] at h
  rw [isFingerCurled004, decide_eq_false_iff_not]
  intro hc
  have hnn := hd (lms p) (lms 0)
  nlinarith [h, hc, hnn]

theorem mainHandStep_pos (dist : Landmark → Landmark → ℚ)
    (acc : Option Hand × ℚ) (hand : Hand) (hnn : 0 ≤ acc.2)
    (hin : acc.1.isSome = true → 0 < acc.2) :
    0 ≤ (mainHandStep dist acc hand).2 ∧
      ((mainHandStep dist acc hand).1.isSome = true →
        0 < (mainHandStep dist acc hand).2) := by
  have hm : mainHandStep dist acc hand
      = if dist (hand 0) (hand 9) > acc.2 then
          (some hand, dist (hand 0) (hand 9))
        else acc := rfl
  rw [hm]
  split
  · next hgt => exact ⟨le_of_lt (lt_of_le_of_lt hnn hgt),
      fun _ => lt_of_le_of_lt hnn hgt⟩
  · exact ⟨hnn, hin⟩

theorem selectMainHand_foldl_pos (dist : Landmark → Landmark → ℚ) :
    ∀ (hands : List Hand) (acc : Option Hand × ℚ), 0 ≤ acc.2 →
      (acc.1.isSome = true → 0 < acc.2) →
      ((hands.foldl (mainHandStep dist) acc).1.isSome = true →
        0 < (hands.foldl (mainHandStep dist) acc).2)
  | [], _, _, hin => hin
  | hand :: rest, acc, hnn, hin => by
      rw [List.foldl_cons]
      have h := mainHandStep_pos dist acc hand hnn hin
      exact selectMainHand_foldl_pos dist rest (mainHandStep dist acc hand)
        h.1 h.2

theorem tick_zoom_not_pinch (s : CState) (p : Pose) (lms : Hand) (sc : ℚ)
    (hp : p ≠ Pose.PINCH_3_OPEN) :
    (tick s (some (.seen p lms sc))).currentZoomFactor = s.currentZoomFactor ∧
      (tickE s (some (.seen p lms sc))).2.zoomEmits = [] := by
  constructor
  · show (processState p lms sc (physicsStep s).1).1.currentZoomFactor
      = s.currentZoomFactor
    rw [processState_zoom_not_pinch _ _ _ _ hp, physicsStep_currentZoomFactor]
  · show (physicsStep s).2.zoomEmits
        ++ (processState p lms sc (physicsStep s).1).2.zoomEmits = []
    rw [physicsStep_zoomEmits, processState_zoomEmits_not_pinch _ _ _ _ hp]
    rfl

/-! ## Claims -/

/-- C1: over every detection-tick raw-pose sequence, a FIST tick whose
immediately preceding detection tick was not POINTING leaves the consumer's
photo-focus value unchanged (both are false, so nothing toggles); a FIST tick
immediately after a POINTING tick toggles the photo-focus value exactly once
per POINTING-to-FIST transition (true after POINTING, flipped at the FIST
tick, with exactly one focus emission on that tick); and a further FIST tick
with no intervening POINTING does not re-toggle it.  The toggle is realized in
the code as the FIST branch writing `false` into the focus flag that the
POINTING branch had set to `true`. -/
theorem c1_fist_click_requires_pointing :
    (∀ (pre : List DetIn) (d : DetIn),
        (∀ lms sc, d ≠ DetIn.seen Pose.POINTING lms sc) →
        ∀ (lms : Hand) (sc : ℚ),
          (dtick (drun (pre ++ [d])) (.seen .FIST lms sc)).emittedFocus
            = (drun (pre ++ [d])).emittedFocus) ∧
    (∀ (lms : Hand) (sc : ℚ),
        (dtick (drun []) (.seen .FIST lms sc)).emittedFocus
          = (drun []).emittedFocus) ∧
    (∀ (pre : List DetIn) (plms lms lms2 : Hand) (psc sc sc2 : ℚ),
        (dtick (drun pre) (.seen .POINTING plms psc)).emittedFocus = true ∧
        (dtick (dtick (drun pre) (.seen .POINTING plms psc))
            (.seen .FIST lms sc)).emittedFocus = false ∧
        (dtickE (dtick (drun pre) (.seen .POINTING plms psc))
            (.seen .FIST lms sc)).2.focusEmits = [false] ∧
        (dtick (dtick (dtick (drun pre) (.seen .POINTING plms psc))
            (.seen .FIST lms sc)) (.seen .FIST lms2 sc2)).emittedFocus
          = (dtick (dtick (drun pre) (.seen .POINTING plms psc))
              (.seen .FIST lms sc)).emittedFocus) := by
  refine ⟨?_, ?_, ?_⟩
  · intro pre d hnp lms sc
    rw [dtick_fist_focus, drun_append_single,
      dtick_focus_false (drun pre) d (InvSel_drun pre) hnp]
  · intro lms sc
    rfl
  · intro pre plms lms lms2 psc sc sc2
    exact ⟨dtick_pointing_focus _ plms psc,
      dtick_fist_focus _ lms sc,
      dtickE_fist_focusEmits _ lms sc,
      by rw [dtick_fist_focus, dtick_fist_focus]⟩

/-- Witness for C1 at a concrete input: a FIST tick directly after an OPEN
tick leaves the photo-focus value unchanged. -/
theorem c1_witness :
    (dtick (drun ([] ++ [DetIn.seen Pose.OPEN (fun _ => ⟨0, 0⟩) 1]))
        (.seen .FIST (fun _ => ⟨0, 0⟩) 1)).emittedFocus
      = (drun ([] ++ [DetIn.seen Pose.OPEN (fun _ => ⟨0, 0⟩) 1])).emittedFocus :=
  c1_fist_click_requires_pointing.1 []
    (DetIn.seen Pose.OPEN (fun _ => ⟨0, 0⟩) 1) (by simp) (fun _ => ⟨0, 0⟩) 1

/-- C2 counterexample: there is no K-tick debounce in the code: from the
initial state (stored pose UNKNOWN) a single detection tick observing FIST
already commits FIST as the stored pose, so with the spec's confirm window
K ≥ 2 (recommended 2-3) the pose changes before K consecutive
observations. -/
theorem c2_counterexample :
    (drun [DetIn.seen Pose.FIST (fun _ => ⟨0, 0⟩) 1]).previousPose
        = Pose.FIST ∧
      initState.previousPose = Pose.UNKNOWN ∧ Pose.FIST ≠ Pose.UNKNOWN :=
  ⟨rfl, rfl, by decide⟩

/-- C2 amended: the raw pose is committed to the stored pose register on every
detection tick that sees a hand — a confirm window of a single tick, with no
debounce counter; a hand-lost tick leaves the register unchanged. -/
theorem c2_amended (s : CState) (p : Pose) (lms : Hand) (sc : ℚ) :
    (dtick s (.seen p lms sc)).previousPose = p ∧
      (dtick s .lost).previousPose = s.previousPose := by
  constructor
  · rw [dtick_eq]
    exact processState_previousPose p lms sc (physicsStep s).1
  · show (physicsStep s).1.previousPose = s.previousPose
    exact physicsStep_previousPose s

/-- C3 counterexample: after a FIST tick followed by a hand-lost tick, photo
focus, mode and the navigation deltas are reset, but the stored previous pose
is NOT reset: it remains FIST instead of returning to the reset value
UNKNOWN. -/
theorem c3_counterexample :
    (drun [DetIn.seen Pose.FIST (fun _ => ⟨0, 0⟩) 1,
        DetIn.lost]).emittedFocus = false ∧
    (drun [DetIn.seen Pose.FIST (fun _ => ⟨0, 0⟩) 1,
        DetIn.lost]).currentMode = HandMode.IDLE ∧
    (drun [DetIn.seen Pose.FIST (fun _ => ⟨0, 0⟩) 1,
        DetIn.lost]).lastHandCentroid = none ∧
    (drun [DetIn.seen Pose.FIST (fun _ => ⟨0, 0⟩) 1,
        DetIn.lost]).lastHandScale = none ∧
    (drun [DetIn.seen Pose.FIST (fun _ => ⟨0, 0⟩) 1,
        DetIn.lost]).previousPose = Pose.FIST ∧
    (drun [DetIn.seen Pose.FIST (fun _ => ⟨0, 0⟩) 1,
        DetIn.lost]).previousPose ≠ Pose.UNKNOWN :=
  ⟨rfl, rfl, rfl, rfl, rfl, by decide⟩

/-- C3 amended: on every hand-lost tick photo focus is reset to false, the
mode to IDLE and the navigation deltas (last pinch centroid and last hand
scale) are cleared, while the stored previous pose (and the zoom factor) are
left unchanged. -/
theorem c3_amended (s : CState) :
    (dtick s .lost).emittedFocus = false ∧
    (dtick s .lost).currentMode = HandMode.IDLE ∧
    (dtick s .lost).lastHandCentroid = none ∧
    (dtick s .lost).lastHandScale = none ∧
    (dtick s .lost).previousPose = s.previousPose ∧
    (dtick s .lost).currentZoomFactor = s.currentZoomFactor := by
  refine ⟨rfl, rfl, rfl, rfl, ?_, ?_⟩
  · show (physicsStep s).1.previousPose = s.previousPose
    exact physicsStep_previousPose s
  · show (physicsStep s).1.currentZoomFactor = s.currentZoomFactor
    exact physicsStep_currentZoomFactor s

/-- C4: the zoom factor starts at 0.5 and remains in the closed interval
[0,1] after every tick of any input sequence; on a NAVIGATION tick with a
stored previous hand scale the update `zoom + dScale * ZOOM_SENSITIVITY` is
hard-clamped to [0,1] and the clamped value is both stored and emitted. -/
theorem c4_zoom_clamped :
    initState.currentZoomFactor = 0.5 ∧
    (∀ l : List (Option DetIn),
        0 ≤ (run l).currentZoomFactor ∧ (run l).currentZoomFactor ≤ 1) ∧
    (∀ (s : CState) (lms : Hand) (sc prev : ℚ), s.lastHandScale = some prev →
        (processState .PINCH_3_OPEN lms sc s).1.currentZoomFactor
            = rmax 0 (rmin 1
                (s.currentZoomFactor + (sc - prev) * ZOOM_SENSITIVITY)) ∧
          (processState .PINCH_3_OPEN lms sc s).2.zoomEmits
            = [rmax 0 (rmin 1
                (s.currentZoomFactor + (sc - prev) * ZOOM_SENSITIVITY))]) := by
  refine ⟨rfl, ?_, ?_⟩
  · intro l
    exact zoom_bounds_foldl l initState (by norm_num [initState])
      (by norm_num [initState])
  · intro s lms sc prev hs
    exact processState_pinch_zoom_some lms sc s prev hs

/-- Witness for C4 at a concrete input (spec Scenario C): with previous scale
0.18, a NAVIGATION tick at scale 0.20 stores the clamped zoom
0.5 + 0.02 * 6.0 = 0.62. -/
theorem c4_witness :
    (processState .PINCH_3_OPEN (fun _ => ⟨0, 0⟩) 0.2
        { initState with lastHandScale := some 0.18 }).1.currentZoomFactor
        = rmax 0 (rmin 1
            (({ initState with
                lastHandScale := some 0.18 } : CState).currentZoomFactor
              + (0.2 - 0.18) * ZOOM_SENSITIVITY)) ∧
      (processState .PINCH_3_OPEN (fun _ => ⟨0, 0⟩) 0.2
        { initState with lastHandScale := some 0.18 }).1.currentZoomFactor
        = 0.62 :=
  ⟨(c4_zoom_clamped.2.2 { initState with lastHandScale := some 0.18 }
      (fun _ => ⟨0, 0⟩) 0.2 0.18 rfl).1,
   by norm_num [processState, initState, rmax, rmin, ZOOM_SENSITIVITY]⟩

/-- C5: on every scheduling tick in which the mode is not NAVIGATION the
rotation velocity undergoes `decayStep` (multiplication by INERTIA_DECAY =
0.90, snapped to exactly 0 once the decayed magnitude falls below 0.001) and
is emitted; a nonzero velocity strictly decreases in magnitude at each such
step; and from every starting value the iterated decay reaches exactly 0
within a bounded number of ticks. -/
theorem c5_inertia_decay_terminates :
    (∀ s : CState, s.currentMode ≠ HandMode.NAVIGATION →
        (physicsStep s).1.currentRotationVel
            = decayStep s.currentRotationVel ∧
          (physicsStep s).2.rotateEmits = [decayStep s.currentRotationVel]) ∧
    (∀ v : ℚ, v ≠ 0 → rabs (decayStep v) < rabs v) ∧
    (∀ v : ℚ, rabs (v * INERTIA_DECAY) < 0.001 → decayStep v = 0) ∧
    (∀ v : ℚ, ∃ n : ℕ, decayStep^[n] v = 0) := by
  refine ⟨?_, ?_, decayStep_snap, decayStep_terminates⟩
  case refine_2 =>
    intro v hv
    rw [rabs_eq_abs, rabs_eq_abs]
    exact decayStep_strict v hv
  intro s h
  unfold physicsStep
  rw [if_pos h]
  exact ⟨rfl, rfl⟩

/-- Witness for C5 at concrete inputs: the initial (IDLE) state takes a decay
step; a velocity of 1 strictly decreases in magnitude; a velocity of 0.001
snaps to exactly 0. -/
theorem c5_witness :
    ((physicsStep initState).1.currentRotationVel
        = decayStep initState.currentRotationVel) ∧
      rabs (decayStep (1 : ℚ)) < rabs 1 ∧ decayStep 0.001 = 0 :=
  ⟨(c5_inertia_decay_terminates.1 initState (by decide)).1,
   c5_inertia_decay_terminates.2.1 1 (by norm_num),
   c5_inertia_decay_terminates.2.2.1 0.001 (by norm_num [rabs, INERTIA_DECAY])⟩

/-- C6 counterexample: a NAVIGATION tick in which a previous pinch centroid
exists but the centroid did not move (Δx = 0): the claim demands the velocity
be set to -0 * ROTATION_SENSITIVITY = 0 and emitted, but the code's
|Δx| > 0.001 dead-zone leaves the velocity at its previous value 1 and emits
nothing. -/
theorem c6_counterexample :
    (drun [DetIn.seen .PINCH_3_OPEN (fun _ => ⟨0.5, 0.5⟩) 1,
        DetIn.seen .PINCH_3_OPEN (fun _ => ⟨0.5 - 1/12, 0.5⟩) 1]).currentMode
        = HandMode.NAVIGATION ∧
    (drun [DetIn.seen .PINCH_3_OPEN (fun _ => ⟨0.5, 0.5⟩) 1,
        DetIn.seen .PINCH_3_OPEN (fun _ => ⟨0.5 - 1/12, 0.5⟩) 1]).lastHandCentroid
        = some ⟨0.5 - 1/12, 0.5⟩ ∧
    (dtick (drun [DetIn.seen .PINCH_3_OPEN (fun _ => ⟨0.5, 0.5⟩) 1,
        DetIn.seen .PINCH_3_OPEN (fun _ => ⟨0.5 - 1/12, 0.5⟩) 1])
        (DetIn.seen .PINCH_3_OPEN (fun _ => ⟨0.5 - 1/12, 0.5⟩) 1)).currentRotationVel
        = 1 ∧
    (dtickE (drun [DetIn.seen .PINCH_3_OPEN (fun _ => ⟨0.5, 0.5⟩) 1,
        DetIn.seen .PINCH_3_OPEN (fun _ => ⟨0.5 - 1/12, 0.5⟩) 1])
        (DetIn.seen .PINCH_3_OPEN (fun _ => ⟨0.5 - 1/12, 0.5⟩) 1)).2.rotateEmits
        = [] ∧
    (1 : ℚ) ≠ -0 * ROTATION_SENSITIVITY := by
  norm_num [drun, dtick, dtickE, tick, tickE, physicsStep, detectStep,
    processState, handleHandLost, initState, decayStep, rabs,
    INERTIA_DECAY, ROTATION_SENSITIVITY, Emits.append, Emits.nil, ne_eq,
    show (HandMode.IDLE = HandMode.NAVIGATION) = False from
      eq_false (by decide),
    show (HandMode.NAVIGATION = HandMode.NAVIGATION) = True from
      eq_true rfl]

/-- C6 amended: on a NAVIGATION tick in which a previous pinch centroid
exists, the rotation velocity is set to -Δx * ROTATION_SENSITIVITY (with
ROTATION_SENSITIVITY = 12.0) and emitted exactly when |Δx| > 0.001; otherwise
the velocity is left unchanged and no rotation value is emitted.  For a pinch
centroid moving from x = 0.50 to x = 0.52 the emitted rotation velocity is
-0.24 (spec Scenario B). -/
theorem c6_rotation_amended :
    (∀ (s : CState) (lms : Hand) (sc : ℚ) (c : Landmark),
        s.lastHandCentroid = some c →
        ((rabs (((lms 4).x + (lms 8).x) / 2 - c.x) > 0.001 →
            (processState .PINCH_3_OPEN lms sc s).1.currentRotationVel
              = -(((lms 4).x + (lms 8).x) / 2 - c.x) * ROTATION_SENSITIVITY ∧
            (processState .PINCH_3_OPEN lms sc s).2.rotateEmits
              = [-(((lms 4).x + (lms 8).x) / 2 - c.x) * ROTATION_SENSITIVITY]) ∧
         (¬ rabs (((lms 4).x + (lms 8).x) / 2 - c.x) > 0.001 →
            (processState .PINCH_3_OPEN lms sc s).1.currentRotationVel
              = s.currentRotationVel ∧
            (processState .PINCH_3_OPEN lms sc s).2.rotateEmits = []))) ∧
    (processState .PINCH_3_OPEN (fun _ => ⟨0.52, 0.5⟩) 1
        { initState with lastHandCentroid := some ⟨0.5, 0.5⟩ }).2.rotateEmits
      = [-0.24] := by
  refine ⟨?_, by
    norm_num [processState, initState, rabs, ROTATION_SENSITIVITY]⟩
  intro s lms sc c hc
  exact processState_pinch_rot_some lms sc s c hc

/-- Witness for C6 at a concrete input: centroid 0.50 → 0.52 sets the stored
velocity to -Δx * ROTATION_SENSITIVITY. -/
theorem c6_witness :
    (processState .PINCH_3_OPEN (fun _ => (⟨0.52, 0.5⟩ : Landmark)) 1
        { initState with
          lastHandCentroid := some ⟨0.5, 0.5⟩ }).1.currentRotationVel
      = -((((fun _ => (⟨0.52, 0.5⟩ : Landmark)) 4).x
            + ((fun _ => (⟨0.52, 0.5⟩ : Landmark)) 8).x) / 2
          - (⟨0.5, 0.5⟩ : Landmark).x) * ROTATION_SENSITIVITY :=
  ((c6_rotation_amended.1 { initState with lastHandCentroid := some ⟨0.5, 0.5⟩ }
      (fun _ => ⟨0.52, 0.5⟩) 1 ⟨0.5, 0.5⟩ rfl).1 (by norm_num [rabs])).1

/-- C7: the pose classifier checks the rules in the fixed priority order
PINCH, POINTING, FIST, OPEN with UNKNOWN as the fallback, first match wins:
the current `determinePose` equals the priority-list classifier
`determinePoseSpec`; and the earlier iteration `determinePose004` (whose text
checks FIST and OPEN before POINTING) also equals the priority-list order for
every nonnegative distance function, because with its thresholds (1.15/1.05) a
finger is never simultaneously extended and curled, making the rules pairwise
non-overlapping. -/
theorem c7_classifier_priority :
    (∀ (dist : Landmark → Landmark → ℚ) (lms : Hand) (sc : ℚ),
        determinePose dist lms sc = determinePoseSpec dist lms sc) ∧
    (∀ dist : Landmark → Landmark → ℚ, (∀ a b, 0 ≤ dist a b) →
        ∀ (lms : Hand) (sc : ℚ),
          determinePose004 dist lms sc = determinePose004Spec dist lms sc) := by
  constructor
  · intro dist lms sc
    rfl
  · intro dist hd lms sc
    unfold determinePose004 determinePose004Spec
    exact classify004_order _ _ _ _ _ _ _ _ _
      (excl004 dist hd lms 8 6) (excl004 dist hd lms 12 10)
      (excl004 dist hd lms 16 14) (excl004 dist hd lms 20 18)

/-- Witness for C7 at a concrete input: the earlier classifier agrees with the
priority-ordered one under the (nonnegative) taxicab distance. -/
theorem c7_witness :
    determinePose004 (fun a b => |a.x - b.x| + |a.y - b.y|)
        (fun _ => ⟨0, 0⟩) 1
      = determinePose004Spec (fun a b => |a.x - b.x| + |a.y - b.y|)
        (fun _ => ⟨0, 0⟩) 1 :=
  c7_classifier_priority.2 (fun a b => |a.x - b.x| + |a.y - b.y|)
    (fun _ _ => add_nonneg (abs_nonneg _) (abs_nonneg _)) (fun _ => ⟨0, 0⟩) 1

/-- C8: the zoom factor is modified, and a zoom value emitted, only on ticks
processing a PINCH_3_OPEN detection (NAVIGATION): every scheduling tick whose
detection input is not a PINCH_3_OPEN frame — a pure physics tick, a hand-lost
tick, or any other pose — leaves the stored zoom factor unchanged and emits no
zoom value. -/
theorem c8_zoom_only_navigation (s : CState) (i : Option DetIn)
    (h : ∀ lms sc, i ≠ some (DetIn.seen Pose.PINCH_3_OPEN lms sc)) :
    (tick s i).currentZoomFactor = s.currentZoomFactor ∧
      (tickE s i).2.zoomEmits = [] := by
  cases i with
  | none =>
      exact ⟨physicsStep_currentZoomFactor s, physicsStep_zoomEmits s⟩
  | some d =>
      cases d with
      | lost =>
          constructor
          · show (physicsStep s).1.currentZoomFactor = s.currentZoomFactor
            exact physicsStep_currentZoomFactor s
          · show (physicsStep s).2.zoomEmits ++ [] = []
            rw [physicsStep_zoomEmits]
            rfl
      | seen p lms sc =>
          cases p with
          | PINCH_3_OPEN => exact absurd rfl (h lms sc)
          | OPEN => exact tick_zoom_not_pinch s .OPEN lms sc (by decide)
          | FIST => exact tick_zoom_not_pinch s .FIST lms sc (by decide)
          | POINTING => exact tick_zoom_not_pinch s .POINTING lms sc (by decide)
          | UNKNOWN => exact tick_zoom_not_pinch s .UNKNOWN lms sc (by decide)

/-- Witness for C8 at a concrete input: a FIST tick leaves the zoom factor
unchanged. -/
theorem c8_witness :
    (tick initState
        (some (DetIn.seen Pose.FIST (fun _ => ⟨0, 0⟩) 1))).currentZoomFactor
      = initState.currentZoomFactor :=
  (c8_zoom_only_navigation initState
    (some (DetIn.seen Pose.FIST (fun _ => ⟨0, 0⟩) 1)) (by simp)).1

/-- C9 counterexample: repeated no-detection ticks from the initial state
re-fire the rotation callback with the unchanged value 0 on every tick — the
state is unchanged between the two ticks and yet each tick emits the same
rotation value again, so a callback does fire on repeated ticks with an
unchanged value. -/
theorem c9_counterexample :
    (tickE initState none).2.rotateEmits = [0] ∧
      tick initState none = initState ∧
      (tickE (tick initState none) none).2.rotateEmits = [0] := by
  refine ⟨?_, ?_, ?_⟩ <;>
    norm_num [tickE, tick, physicsStep, decayStep, initState, rabs,
      INERTIA_DECAY, Emits.nil, ne_eq,
      show (HandMode.IDLE = HandMode.NAVIGATION) = False from
        eq_false (by decide)]

/-- C9 amended: on every scheduling tick from any reachable state, each of the
four output callbacks (state-change, zoom-factor, rotation-velocity,
photo-focus) is fired at most once; callbacks may however re-fire unchanged
values on consecutive ticks. -/
theorem c9_callbacks_at_most_once (l : List (Option DetIn))
    (i : Option DetIn) :
    (tickE (run l) i).2.stateEmits.length ≤ 1 ∧
      (tickE (run l) i).2.zoomEmits.length ≤ 1 ∧
      (tickE (run l) i).2.rotateEmits.length ≤ 1 ∧
      (tickE (run l) i).2.focusEmits.length ≤ 1 :=
  tickE_emits_len (run l) i (InvNav_run l)

/-- C10: whenever the detection loop selects a main hand, the accompanying
scale is strictly greater than 0 — a hand only becomes the main hand when its
wrist-to-middle-finger-base distance strictly exceeds the running maximum
initialized to 0 — hence the `pinchDist / scale` division inside the pose
classifier never divides by zero when invoked from the detection tick. -/
theorem c10_main_hand_scale_pos (dist : Landmark → Landmark → ℚ)
    (hands : List Hand)
    (h : (selectMainHand dist hands).1.isSome = true) :
    0 < (selectMainHand dist hands).2 ∧ (selectMainHand dist hands).2 ≠ 0 := by
  have hp := selectMainHand_foldl_pos dist hands (none, 0) le_rfl
    (fun hh => by simp at hh) h
  exact ⟨hp, ne_of_gt hp⟩

/-- Witness for C10 at a concrete input: a single hand whose taxicab
wrist-to-palm distance is 9 is selected with a strictly positive scale. -/
theorem c10_witness :
    0 < (selectMainHand (fun a b => |a.x - b.x| + |a.y - b.y|)
        [fun i => ⟨(i : ℚ), 0⟩]).2 :=
  (c10_main_hand_scale_pos (fun a b => |a.x - b.x| + |a.y - b.y|)
    [fun i => ⟨(i : ℚ), 0⟩]
    (by norm_num [selectMainHand, mainHandStep])).1

end Ligong
